import Mathlib

/-!
Shallow embedding of the persistence and derivation core of `src/app.py`
(a single-file Streamlit personal-finance app), for checking the
natural-language specification against the code.

Modelling conventions:
* monetary amounts are rationals (`ℚ`);
* calendar dates are triples `⟨year, month, day⟩` of naturals; the code's
  `'%Y-%m'` / `'%Y-%m-%d'` strftime strings are modelled by the corresponding
  numeric components (the formatting is injective, so string equality of the
  formatted values coincides with equality of the components);
* the process-wide `st.cache_data` cache and the on-disk JSON files are made
  explicit as a `StoreState` record, with serialized file contents modelled
  as strings;
* Python exceptions are modelled by explicit failure flags / `Option`
  fault-injection parameters on the operations that can raise.
-/

/-- Gregorian leap-year test, as used by `pandas.Timestamp.days_in_month`. -/
def isLeap (y : Nat) : Bool :=
  (y % 4 == 0 && y % 100 != 0) || y % 400 == 0

/-- Number of days in month `m` of year `y`
(`pd.Timestamp(mes_atual_str).days_in_month` in `processar_recorrentes`). -/
def daysInMonth (y m : Nat) : Nat :=
  if m = 2 then (if isLeap y then 29 else 28)
  else if m = 4 ∨ m = 6 ∨ m = 9 ∨ m = 11 then 30
  else 31

/-- A calendar date `YYYY-MM-DD`. -/
structure Date where
  y : Nat
  m : Nat
  d : Nat
deriving DecidableEq, Repr

/-- A record of the `lancamentos.json` collection (a transaction). -/
structure Lancamento where
  id : String
  data : Date
  tipo : String
  categoria : String
  valor : ℚ
  descricao : String
deriving DecidableEq, Repr

/-- A record of the `recorrentes.json` collection (a recurring template).
The code stores `data_base` as a `'%Y-%m-%d'` string and extracts the
anchor day with `int(recorrente['data_base'].split('-')[2])`; here
`data_base` is the parsed date and the anchor day is its `d` component. -/
structure Recorrente where
  id : String
  tipo : String
  categoria : String
  valor : ℚ
  data_base : Date
deriving DecidableEq, Repr

/-- A record of the `investimentos.json` collection (a holding). -/
structure Investimento where
  id : String
  ticker : String
  classe : String
  quantidade : ℚ
  preco_medio : ℚ
deriving DecidableEq, Repr

/-- A record of the `metas.json` collection (a goal). -/
structure Meta where
  id : String
  nome : String
  valor_alvo : ℚ
deriving DecidableEq, Repr

/-- The `config.json` singleton record.  `none` models an absent key
(`config.get(...)` returning the default). `ultimo_mes_recorrente` is the
`'%Y-%m'` value as a `(year, month)` pair. -/
structure Config where
  ultimo_backup : Option Date
  ultimo_mes_recorrente : Option (Nat × Nat)
deriving DecidableEq, Repr

/-! ### Collection Store (`load_data` / `save_data`)

`load_data` is wrapped in `st.cache_data(ttl=60)`: a per-path cache entry
younger than 60 seconds is served without touching the disk.  `save_data`
acquires a `FileLock`, opens the target file with mode `'w'` (which
truncates it immediately), `json.dump`s the data, and finally calls
`st.cache_data.clear()`, which empties the whole cache (every path).
The lock only serializes concurrent writers; in this single-threaded
model it has no further effect.

File contents are serialized strings; `disk` maps a path to its current
content and `cache` maps a path to a cached content together with the
timestamp at which it was cached. -/

structure StoreState where
  disk : String → String
  cache : String → Option (String × Nat)
  now : Nat

/-- `load_data(file_path)` under `st.cache_data(ttl=60)`: serve a cache
entry younger than the TTL, otherwise read the file and cache it with the
current timestamp. -/
def load_data (path : String) (s : StoreState) : String × StoreState :=
  match s.cache path with
  | some (v, t) =>
      if s.now - t < 60 then (v, s)
      else
        let v := s.disk path
        (v, { s with cache := fun p => if p = path then some (v, s.now) else s.cache p })
  | none =>
      let v := s.disk path
      (v, { s with cache := fun p => if p = path then some (v, s.now) else s.cache p })

/-- `save_data(data, file_path)`.  `failAt = none` models a write that
completes: the file holds the full serialization and `st.cache_data.clear()`
empties the whole cache.  `failAt = some k` models `json.dump` raising after
emitting `k` characters: since `open(file_path, 'w')` already truncated the
file, the file is left holding only the first `k` characters of the new
serialization, the cache-clearing line is never reached, and the exception
propagates (returned flag `false`). -/
def save_data (data : String) (path : String) (failAt : Option Nat)
    (s : StoreState) : StoreState × Bool :=
  match failAt with
  | some k =>
      ({ s with disk := fun p => if p = path then data.take k else s.disk p }, false)
  | none =>
      ({ s with disk := fun p => if p = path then data else s.disk p,
                cache := fun _ => none }, true)

/-! ### Recurring Transaction Materializer (`processar_recorrentes`)

The session state relevant to `processar_recorrentes`: the parsed contents
of `lancamentos.json`, `recorrentes.json` and `config.json`.  `hoje` is
`datetime.now()`, `ids` supplies the fresh `uuid4` identifiers (one per
generated record, in order).  The two `save_data` calls can raise; a raised
exception is modelled by the fault-injection flags `fail1` (the
transactions write) and `fail2` (the config write), under the most
favorable failure semantics: a failing write leaves the collection
unchanged and the exception propagates (returned flag `false`). -/

structure AppState where
  lancamentos : List Lancamento
  recorrentes : List Recorrente
  config : Config
deriving DecidableEq, Repr

/-- The loop body of `processar_recorrentes`: one new `Lancamento` per
template, dated `hoje.replace(day = min(anchor_day, days_in_month))`, with
`tipo`/`categoria`/`valor` copied and the system-generated note. -/
def materializar (hoje : Date) (ids : Nat → String) (recs : List Recorrente) :
    List Lancamento :=
  recs.enum.map fun p =>
    let dia := min p.2.data_base.d (daysInMonth hoje.y hoje.m)
    { id := ids p.1
      data := { y := hoje.y, m := hoje.m, d := dia }
      tipo := p.2.tipo
      categoria := p.2.categoria
      valor := p.2.valor
      descricao := "(Recorrente) " ++ p.2.categoria }

/-- `processar_recorrentes()`: if `config.get('ultimo_mes_recorrente', '')`
differs from the current `'%Y-%m'` month and there is at least one
template, generate the month's transactions, append them to the transaction
collection in one `save_data`, then set `ultimo_mes_recorrente` to the
current month and `save_data` the config.  Returned flag: `true` when no
write raised. -/
def processar_recorrentes (hoje : Date) (ids : Nat → String)
    (fail1 fail2 : Bool) (s : AppState) : AppState × Bool :=
  let mesAtual := (hoje.y, hoje.m)
  if s.config.ultimo_mes_recorrente ≠ some mesAtual ∧ s.recorrentes ≠ [] then
    let novos := materializar hoje ids s.recorrentes
    if novos ≠ [] then
      if fail1 then (s, false)
      else
        let s1 := { s with lancamentos := s.lancamentos ++ novos }
        if fail2 then (s1, false)
        else ({ s1 with
                  config := { s1.config with ultimo_mes_recorrente := some mesAtual } },
              true)
    else (s, true)
  else (s, true)

/-! ### Backup Scheduler (`criar_backup_diario`)

`files` holds the current content of the data files by base name (`none`
when the file does not exist, so `os.path.exists` fails and the copy is
skipped); `backups` holds the dated snapshots, keyed by
`(base name, date)` — the snapshot file `<base>_<YYYY-MM-DD>.json`.
The config read happens after any preceding `save_data` cleared the cache,
so it sees the persisted config; the final `save_data` of the config is
taken to complete. -/

structure BackupState where
  files : String → Option String
  backups : String × Date → Option String
  config : Config

/-- The `files_to_backup` list of `criar_backup_diario` (base names). -/
def files_to_backup : List String :=
  ["lancamentos.json", "investimentos.json", "recorrentes.json", "metas.json"]

/-- One iteration of the backup copy loop: if the data file `name` exists,
`shutil.copy` it to the snapshot keyed `(name, hoje)`; otherwise skip. -/
def copyOne (hoje : Date) (acc : BackupState) (name : String) : BackupState :=
  match acc.files name with
  | some content =>
      { acc with backups := fun k =>
          if k = (name, hoje) then some content else acc.backups k }
  | none => acc

/-- `criar_backup_diario()`: no-op when `config.get('ultimo_backup')`
equals today; otherwise copy each existing data file to its dated snapshot,
record today as `ultimo_backup`, and persist the config. -/
def criar_backup_diario (hoje : Date) (s : BackupState) : BackupState :=
  if s.config.ultimo_backup = some hoje then s
  else
    let s1 := files_to_backup.foldl (copyOne hoje) s
    { s1 with config := { s1.config with ultimo_backup := some hoje } }

/-! ### Price Lookup (`buscar_cotacoes`)

The `yf.download` call either raises (any provider/network error — caught
by the surrounding `try`) or returns a data frame.  The frame is modelled
by `ProviderData`: `isEmpty` is `data.empty`, and `close` gives the last
`Close` value per requested `.SA`-suffixed symbol — an absent key models a
missing column, `some none` models a `NaN` last price, `some (some p)` a
valid price `p`.  (For a single requested ticker the frame has one plain
`Close` column; it is keyed here by that ticker's `.SA` name.) -/

structure ProviderData where
  isEmpty : Bool
  close : List (String × Option ℚ)

/-- `ticker_sa.replace('.SA', '')` on the character list (left-to-right,
non-overlapping removal of every occurrence of `.SA`). -/
def replaceDropSA : List Char → List Char
  | [] => []
  | '.' :: 'S' :: 'A' :: rest => replaceDropSA rest
  | c :: rest => c :: replaceDropSA rest

/-- `ticker_sa.replace('.SA', '')` on strings. -/
def dropSA (t : String) : String := String.mk (replaceDropSA t.toList)

/-- Python `str.strip()` (ASCII-whitespace fragment), character-wise. -/
def stripChars (s : String) : String :=
  String.mk (((s.toList.dropWhile Char.isWhitespace).reverse.dropWhile
    Char.isWhitespace).reverse)

/-- Python `str.upper()` (ASCII fragment), character-wise. -/
def toUpperStr (s : String) : String := String.mk (s.toList.map Char.toUpper)

/-- `buscar_cotacoes(tickers)`: empty input gives an empty mapping; the
body runs under `try`, so a provider exception gives an empty mapping; an
empty frame gives an empty mapping; otherwise the single-ticker branch
keys the result by the original ticker and the multi-ticker loop (modelled
by `filterMap`, which collects the same entries in the same order) keys it
by `ticker_sa.replace('.SA', '')`, skipping symbols whose column is absent
or whose last price is `NaN`. -/
def buscar_cotacoes (tickers : List String)
    (provider : Except Unit ProviderData) : List (String × ℚ) :=
  if tickers = [] then []
  else
    let tickers_sa := tickers.map fun t => toUpperStr (stripChars t) ++ ".SA"
    match provider with
    | .error _ => []
    | .ok data =>
        if data.isEmpty then []
        else if tickers_sa.length = 1 then
          match data.close.lookup tickers_sa.headI with
          | some (some p) => [(tickers.headI, p)]
          | _ => []
        else
          tickers_sa.filterMap fun sa =>
            match data.close.lookup sa with
            | some (some p) => some (dropSA sa, p)
            | _ => none

/-! ### Portfolio Valuation (`page_investimentos`, lines 342–354)

The price mapping is a function `String → Option ℚ` standing for the dict
returned by `buscar_cotacoes` (`cotacoes.get(ticker, default)` is
`(cot ticker).getD default`). -/

/-- The tickers requested from the provider: only holdings whose `classe`
is `'Ações'` or `'FIIs'`. -/
def tickers_consulta (invs : List Investimento) : List String :=
  (invs.filter fun i => i.classe == "Ações" || i.classe == "FIIs").map (·.ticker)

/-- One term of the `valor_mercado_total` loop:
`item['quantidade'] * cotacoes.get(item['ticker'], item['preco_medio'])`. -/
def valor_mercado_item (cot : String → Option ℚ) (i : Investimento) : ℚ :=
  i.quantidade * (cot i.ticker).getD i.preco_medio

/-- `total_custo = sum(item['quantidade'] * item['preco_medio'] ...)`. -/
def total_custo (invs : List Investimento) : ℚ :=
  (invs.map fun i => i.quantidade * i.preco_medio).sum

/-- `valor_mercado_total`, accumulated over all holdings. -/
def valor_mercado_total (cot : String → Option ℚ) (invs : List Investimento) : ℚ :=
  (invs.map (valor_mercado_item cot)).sum

/-- `lucro_prejuizo = valor_mercado_total - total_custo`. -/
def lucro_prejuizo (cot : String → Option ℚ) (invs : List Investimento) : ℚ :=
  valor_mercado_total cot invs - total_custo invs

/-- `lucro_prejuizo_perc = (lucro_prejuizo / total_custo * 100) if total_custo > 0 else 0`. -/
def lucro_prejuizo_perc (cot : String → Option ℚ) (invs : List Investimento) : ℚ :=
  if total_custo invs > 0 then lucro_prejuizo cot invs / total_custo invs * 100 else 0

/-! ### Goal Progress (`page_metas`, lines 452–454) -/

/-- `s.lower()` as a character list (Python `str.lower`, ASCII fragment). -/
def lowerChars (s : String) : List Char := s.toList.map Char.toLower

/-- Python substring containment `xs in ys` on character lists. -/
def infixOfB (xs : List Char) : List Char → Bool
  | [] => xs.isEmpty
  | y :: t => xs.isPrefixOf (y :: t) || infixOfB xs t

/-- `meta['nome'].lower() in item.get('categoria', '').lower()`. -/
def containsCI (needle hay : String) : Bool :=
  infixOfB (lowerChars needle) (lowerChars hay)

/-- `aportes_meta = sum(item['valor'] for item in lancamentos if
meta['nome'].lower() in item.get('categoria', '').lower() and
item['tipo'] == 'Despesa')`. -/
def aportes_meta (meta : Meta) (lancs : List Lancamento) : ℚ :=
  ((lancs.filter fun item =>
      containsCI meta.nome item.categoria && item.tipo == "Despesa").map
    (·.valor)).sum

/-- `progresso = (aportes_meta / meta['valor_alvo']) if meta['valor_alvo'] > 0 else 0`. -/
def progresso (meta : Meta) (lancs : List Lancamento) : ℚ :=
  if meta.valor_alvo > 0 then aportes_meta meta lancs / meta.valor_alvo else 0

/-! ### Helper lemmas -/

/-- A successful `List.lookup` hit is a member of the association list. -/
theorem lookup_mem {α β : Type} [BEq α] [LawfulBEq α] {k : α}
    {l : List (α × β)} {v : β} (h : l.lookup k = some v) : (k, v) ∈ l := by
  induction l with
  | nil => simp [List.lookup] at h
  | cons p t ih =>
      rcases p with ⟨a, b⟩
      rw [List.lookup] at h
      rcases hb : k == a with _ | _
      · rw [hb] at h
        exact List.mem_cons_of_mem _ (ih h)
      · rw [hb] at h
        obtain rfl : k = a := eq_of_beq hb
        obtain rfl : b = v := by simpa using h
        exact List.mem_cons_self _ _

/-- `materializar` produces one transaction per template. -/
theorem materializar_length (hoje : Date) (ids : Nat → String)
    (recs : List Recorrente) : (materializar hoje ids recs).length = recs.length := by
  simp [materializar]

/-- `materializar` yields the empty list exactly on the empty template list. -/
theorem materializar_eq_nil (hoje : Date) (ids : Nat → String)
    (recs : List Recorrente) : materializar hoje ids recs = [] ↔ recs = [] := by
  rw [← List.length_eq_zero, ← List.length_eq_zero, materializar_length]

/-! ### Concrete states used by witnesses and counterexamples -/

/-- A store whose file `f` holds `old`, with an empty cache. -/
def store0 : StoreState :=
  { disk := fun p => if p = "f" then "old" else ""
    cache := fun _ => none
    now := 0 }

/-- A fixed id supply (stands for the `uuid4` stream). -/
def ids0 : Nat → String := fun n => "uuid-" ++ toString n

/-- A recurring template anchored on day 31. -/
def rec31 : Recorrente :=
  { id := "r1", tipo := "Despesa", categoria := "Aluguel", valor := 100
    data_base := { y := 2026, m := 1, d := 31 } }

/-- An app state with one template, no transactions, fresh config. -/
def app0 : AppState :=
  { lancamentos := []
    recorrentes := [rec31]
    config := { ultimo_backup := none, ultimo_mes_recorrente := none } }

/-- A sample current date. -/
def hoje0 : Date := { y := 2026, m := 10, d := 12 }

/-! ### C2 — coarse cache invalidation -/

/-- C2: after a completed `save_data` to any path, a `load_data` of any
path (the written one or another) returns that path's current on-disk
content — never a cache entry from before the write — because the write
path empties the whole cache; and the written path's content is the
written data. -/
theorem C2_cache_invalidation (s : StoreState) (data path q : String) :
    (load_data q (save_data data path none s).1).1
        = (save_data data path none s).1.disk q
    ∧ (save_data data path none s).1.cache q = none
    ∧ (save_data data path none s).1.disk path = data := by
  refine ⟨?_, rfl, by simp [save_data]⟩
  simp [save_data, load_data]

/-! ### C4 — write-failure atomicity -/

/-- C4 counterexample: a write of `new` to file `f` (holding `old`) that
fails before any character is emitted leaves the file empty — the prior
on-disk content `old` is destroyed by the truncating `open(..., 'w')`, so
the claim that a failed write leaves the prior on-disk contents unchanged
is false. -/
theorem C4_counterexample :
    store0.disk "f" = "old"
    ∧ (save_data "new" "f" (some 0) store0).2 = false
    ∧ (save_data "new" "f" (some 0) store0).1.disk "f" = ""
    ∧ (save_data "new" "f" (some 0) store0).1.disk "f" ≠ store0.disk "f" := by
  refine ⟨rfl, rfl, by decide, by decide⟩

/-- C4 amended: on a failing write the error is surfaced to the caller and
all cached collection values are left unchanged, and files other than the
target keep their prior contents; but the target file itself is truncated
on open, so after a failure at `k` emitted characters it holds the first
`k` characters of the new serialization — its prior contents may be lost. -/
theorem C4_amended (s : StoreState) (data path q : String) (k : Nat)
    (hq : q ≠ path) :
    (save_data data path (some k) s).2 = false
    ∧ (save_data data path (some k) s).1.cache = s.cache
    ∧ (save_data data path (some k) s).1.disk path = data.take k
    ∧ (save_data data path (some k) s).1.disk q = s.disk q := by
  refine ⟨rfl, rfl, by simp [save_data], by simp [save_data, hq]⟩

/-- Witness for `C4_amended` at a concrete failing write. -/
theorem C4_amended_witness :
    ("g" : String) ≠ "f"
    ∧ (save_data "new" "f" (some 0) store0).1.disk "g" = store0.disk "g" :=
  ⟨by decide, (C4_amended store0 "new" "f" "g" 0 (by decide)).2.2.2⟩

/-! ### C1 — idempotence of materialization per calendar month -/

/-- C1: when the config's last-processed month equals the current month,
`processar_recorrentes` is a complete no-op (no transactions appended, no
state change, no error); consequently after any completed run, a further
run in the same month — with any templates, id stream or fault injection —
changes nothing: only the first call of the month produces transactions. -/
theorem C1_idempotence :
    (∀ (hoje : Date) (ids : Nat → String) (f1 f2 : Bool) (s : AppState),
        s.config.ultimo_mes_recorrente = some (hoje.y, hoje.m) →
        processar_recorrentes hoje ids f1 f2 s = (s, true))
    ∧ (∀ (hoje : Date) (ids ids2 : Nat → String) (f1 f2 : Bool) (s : AppState),
        (processar_recorrentes hoje ids false false s).2 = true →
        processar_recorrentes hoje ids2 f1 f2
            (processar_recorrentes hoje ids false false s).1
          = ((processar_recorrentes hoje ids false false s).1, true)) := by
  constructor
  · intro hoje ids f1 f2 s h
    simp [processar_recorrentes, h]
  · intro hoje ids ids2 f1 f2 s _h
    by_cases hc : s.config.ultimo_mes_recorrente ≠ some (hoje.y, hoje.m)
        ∧ s.recorrentes ≠ []
    · have hnovos : materializar hoje ids s.recorrentes ≠ [] := by
        rw [Ne, materializar_eq_nil]
        exact hc.2
      simp [processar_recorrentes, hc, hnovos]
    · simp [processar_recorrentes, hc]

/-- Witness for `C1_idempotence` at a concrete already-processed state. -/
theorem C1_idempotence_witness :
    processar_recorrentes hoje0 ids0 false false
        { app0 with config := { app0.config with
            ultimo_mes_recorrente := some (2026, 10) } }
      = ({ app0 with config := { app0.config with
            ultimo_mes_recorrente := some (2026, 10) } }, true) :=
  C1_idempotence.1 hoje0 ids0 false false _ (by decide)

/-! ### C10 — zero templates is a complete no-op -/

/-- C10: with no recurring templates, `processar_recorrentes` leaves the
whole state — transactions and config, in particular
`ultimo_mes_recorrente` — unchanged and reports success, so the month is
not marked processed. -/
theorem C10_zero_templates (hoje : Date) (ids : Nat → String)
    (f1 f2 : Bool) (s : AppState) (h : s.recorrentes = []) :
    processar_recorrentes hoje ids f1 f2 s = (s, true) := by
  simp [processar_recorrentes, h]

/-- An app state with no templates and an unprocessed month. -/
def appNoRecs : AppState :=
  { lancamentos := []
    recorrentes := []
    config := { ultimo_backup := none, ultimo_mes_recorrente := none } }

/-- Witness for `C10_zero_templates` at a concrete state. -/
theorem C10_zero_templates_witness :
    processar_recorrentes hoje0 ids0 false false appNoRecs = (appNoRecs, true) :=
  C10_zero_templates hoje0 ids0 false false appNoRecs (by decide)

/-! ### C9 — failure-retry safety of materialization -/

/-- C9 counterexample: starting from one template and no transactions, a
run whose config write fails reports failure and leaves the month
unmarked, but the transactions were already appended; the wholesale re-run
then appends the template's transaction a second time, ending with two
materialized transactions where a single successful run produces one — so
a post-failure re-run does not yield the state of a single successful run
(the template is materialized twice, not once). -/
theorem C9_counterexample :
    (processar_recorrentes hoje0 ids0 false true app0).2 = false
    ∧ (processar_recorrentes hoje0 ids0 false true app0).1.config.ultimo_mes_recorrente
        = none
    ∧ (processar_recorrentes hoje0 ids0 false true app0).1.lancamentos.length = 1
    ∧ ((processar_recorrentes hoje0 ids0 false false
          (processar_recorrentes hoje0 ids0 false true app0).1).1.lancamentos).length
        = 2
    ∧ ((processar_recorrentes hoje0 ids0 false false app0).1.lancamentos).length
        = 1 := by
  decide

/-- C9 amended: the generated transactions are appended in one write and
only then is `ultimo_mes_recorrente` persisted; a failure of either write
surfaces as failure and leaves the month unmarked.  If the transactions
write itself fails (leaving the collection unchanged), nothing at all has
changed and the wholesale re-run is safe; but if the transactions write
succeeds and the config write fails, the re-run materializes every
template again, appending a second copy of the generated transactions —
the wholesale re-run is not idempotent in that case. -/
theorem C9_amended (hoje : Date) (ids : Nat → String) (s : AppState)
    (h1 : s.config.ultimo_mes_recorrente ≠ some (hoje.y, hoje.m))
    (h2 : s.recorrentes ≠ []) :
    (∀ f2, processar_recorrentes hoje ids true f2 s = (s, false))
    ∧ ((processar_recorrentes hoje ids false true s).1
          = { s with lancamentos :=
                s.lancamentos ++ materializar hoje ids s.recorrentes }
        ∧ (processar_recorrentes hoje ids false true s).2 = false)
    ∧ (∀ ids2 : Nat → String,
        (processar_recorrentes hoje ids2 false false
            (processar_recorrentes hoje ids false true s).1).1.lancamentos
          = s.lancamentos ++ materializar hoje ids s.recorrentes
              ++ materializar hoje ids2 s.recorrentes) := by
  have hnovos : materializar hoje ids s.recorrentes ≠ [] := by
    rw [Ne, materializar_eq_nil]
    exact h2
  refine ⟨?_, ⟨?_, ?_⟩, ?_⟩
  · intro f2
    simp [processar_recorrentes, h1, h2, hnovos]
  · simp [processar_recorrentes, h1, h2, hnovos]
  · simp [processar_recorrentes, h1, h2, hnovos]
  · intro ids2
    have hnovos2 : materializar hoje ids2 s.recorrentes ≠ [] := by
      rw [Ne, materializar_eq_nil]
      exact h2
    simp [processar_recorrentes, h1, h2, hnovos, hnovos2]

/-- Witness for `C9_amended` at the concrete one-template state. -/
theorem C9_amended_witness :
    (processar_recorrentes hoje0 ids0 false true app0).2 = false :=
  (C9_amended hoje0 ids0 app0 (by decide) (by decide)).2.1.2

/-! ### C3 — day-of-month clamping -/

/-- C3: every materialized transaction is dated in the current month on
day `min(anchor_day, days_in_month)`; concretely, an `anchor_day = 31`
template materializes on day 30 in April, day 28 in the non-leap February
of 2023, and day 29 in the leap February of 2024. -/
theorem C3_day_clamping :
    (∀ (hoje : Date) (ids : Nat → String) (recs : List Recorrente),
        ∀ t ∈ materializar hoje ids recs,
          ∃ r ∈ recs,
            t.data = { y := hoje.y, m := hoje.m,
                       d := min r.data_base.d (daysInMonth hoje.y hoje.m) })
    ∧ ((materializar { y := 2023, m := 4, d := 15 } ids0 [rec31]).map
        fun t => t.data.d) = [30]
    ∧ ((materializar { y := 2023, m := 2, d := 15 } ids0 [rec31]).map
        fun t => t.data.d) = [28]
    ∧ ((materializar { y := 2024, m := 2, d := 15 } ids0 [rec31]).map
        fun t => t.data.d) = [29] := by
  refine ⟨?_, by decide, by decide, by decide⟩
  intro hoje ids recs t ht
  rw [materializar, List.mem_map] at ht
  obtain ⟨p, hp, rfl⟩ := ht
  rw [List.mem_enum_iff_getElem?] at hp
  exact ⟨p.2, List.getElem?_mem hp, rfl⟩

/-- The transaction `rec31` materializes to in April 2023. -/
def lanc31abr : Lancamento :=
  { id := "uuid-0"
    data := { y := 2023, m := 4, d := 30 }
    tipo := "Despesa"
    categoria := "Aluguel"
    valor := 100
    descricao := "(Recorrente) Aluguel" }

/-- Witness for `C3_day_clamping` at the April 2023 materialization. -/
theorem C3_day_clamping_witness :
    ∃ r ∈ [rec31],
      lanc31abr.data = { y := 2023, m := 4,
                         d := min r.data_base.d (daysInMonth 2023 4) } :=
  C3_day_clamping.1 { y := 2023, m := 4, d := 15 } ids0 [rec31] lanc31abr
    (by decide)

/-! ### C6 — goal progress -/

/-- The goal and transactions of the spec's worked example. -/
def metaTravel : Meta := { id := "m1", nome := "Travel", valor_alvo := 500 }

/-- Expense 200 on a category containing the goal name, expense 100 on the
exact name, and an income 50 whose category also matches. -/
def exLancs : List Lancamento :=
  [ { id := "l1", data := { y := 2026, m := 10, d := 1 }, tipo := "Despesa"
      categoria := "Travel - Flights", valor := 200, descricao := "" },
    { id := "l2", data := { y := 2026, m := 10, d := 2 }, tipo := "Despesa"
      categoria := "Travel", valor := 100, descricao := "" },
    { id := "l3", data := { y := 2026, m := 10, d := 3 }, tipo := "Receita"
      categoria := "Travel refund", valor := 50, descricao := "" } ]

/-- C6: goal progress sums exactly the `Despesa` transactions whose
category contains the goal name case-insensitively; the fraction is
`progress / target` guarded by `target > 0` (otherwise `0`, total by
construction, never raising); on the spec's example the income is excluded,
progress is 300 and the fraction 3/5 = 0.6. -/
theorem C6_goal_progress :
    (∀ (m : Meta) (ls : List Lancamento), m.valor_alvo ≤ 0 →
        progresso m ls = 0)
    ∧ (∀ (m : Meta) (ls : List Lancamento), 0 < m.valor_alvo →
        progresso m ls = aportes_meta m ls / m.valor_alvo)
    ∧ (∀ (m : Meta) (ls : List Lancamento),
        aportes_meta m ls
          = ((ls.filter fun item =>
                containsCI m.nome item.categoria
                  && item.tipo == "Despesa").map fun item => item.valor).sum)
    ∧ aportes_meta metaTravel exLancs = 300
    ∧ progresso metaTravel exLancs = 3 / 5 := by
  have h1 : containsCI "Travel" "Travel - Flights" = true := by decide
  have h2 : containsCI "Travel" "Travel" = true := by decide
  have h3 : containsCI "Travel" "Travel refund" = true := by decide
  refine ⟨?_, ?_, fun m ls => rfl, ?_, ?_⟩
  · intro m ls h
    simp [progresso, not_lt.mpr h]
  · intro m ls h
    simp [progresso, h]
  · simp [aportes_meta, metaTravel, exLancs, List.filter, h1, h2, h3]
    norm_num
  · simp [progresso, aportes_meta, metaTravel, exLancs, List.filter, h1, h2, h3]
    norm_num

/-- Witness for `C6_goal_progress` at a zero-target goal. -/
theorem C6_goal_progress_witness :
    progresso { id := "m0", nome := "X", valor_alvo := 0 } exLancs = 0 :=
  C6_goal_progress.1 _ exLancs (by norm_num)

/-! ### C5 — portfolio valuation -/

/-- A crypto holding and an equity holding sharing the same ticker. -/
def cripto0 : Investimento :=
  { id := "i1", ticker := "BTC1", classe := "Cripto"
    quantidade := 1, preco_medio := 10 }

/-- The equity holding whose ticker collides with `cripto0`. -/
def acao0 : Investimento :=
  { id := "i2", ticker := "BTC1", classe := "Ações"
    quantidade := 1, preco_medio := 10 }

/-- A price mapping holding a live price for the shared ticker — exactly
what the price lookup returns for `tickers_consulta [acao0, cripto0]`. -/
def cot0 : String → Option ℚ := fun t => if t = "BTC1" then some 20 else none

/-- C5 counterexample: the valuation loop applies `cotacoes.get` to every
holding regardless of class, so a `Cripto` holding whose ticker happens to
be in the mapping (here because an equity holding shares it) is valued at
the live price 20, not at its cost 10 — the claim that non-Equity/REIT
classes always value at cost is false. -/
theorem C5_counterexample :
    cripto0.classe = "Cripto"
    ∧ tickers_consulta [acao0, cripto0] = ["BTC1"]
    ∧ cripto0.quantidade * cripto0.preco_medio = 10
    ∧ valor_mercado_item cot0 cripto0 = 20
    ∧ valor_mercado_item cot0 cripto0 ≠ cripto0.quantidade * cripto0.preco_medio := by
  refine ⟨rfl, by decide, by norm_num [cripto0],
    by norm_num [valor_mercado_item, cot0, cripto0],
    by norm_num [valor_mercado_item, cot0, cripto0]⟩

/-- A fixed-income holding whose ticker is not in `cot0`. -/
def rf0 : Investimento :=
  { id := "i3", ticker := "CDB1", classe := "Renda Fixa"
    quantidade := 2, preco_medio := 50 }

/-- C5 amended: each holding's market value is `quantity × (mapped price if
its ticker is present, else average cost)` — for every holding regardless
of asset class: the Equity/REIT filter governs only which tickers are
requested from the provider, and two holdings differing only in class and
id are valued identically.  A holding whose ticker is absent from the
mapping values at cost and contributes exactly 0 to `gain_loss`;
`gain_loss_pct` is `gain_loss / Σcost_basis × 100` when `Σcost_basis > 0`
and `0` otherwise. -/
theorem C5_amended :
    (∀ (cot : String → Option ℚ) (i : Investimento), cot i.ticker = none →
        valor_mercado_item cot i = i.quantidade * i.preco_medio)
    ∧ (∀ (cot : String → Option ℚ) (i : Investimento)
        (invs : List Investimento), cot i.ticker = none →
        lucro_prejuizo cot (i :: invs) = lucro_prejuizo cot invs)
    ∧ (∀ (cot : String → Option ℚ) (i j : Investimento),
        i.ticker = j.ticker → i.quantidade = j.quantidade →
        i.preco_medio = j.preco_medio →
        valor_mercado_item cot i = valor_mercado_item cot j)
    ∧ (∀ (invs : List Investimento) (t : String), t ∈ tickers_consulta invs →
        ∃ i ∈ invs, i.ticker = t ∧ (i.classe = "Ações" ∨ i.classe = "FIIs"))
    ∧ (∀ (cot : String → Option ℚ) (invs : List Investimento),
        total_custo invs ≤ 0 → lucro_prejuizo_perc cot invs = 0)
    ∧ (∀ (cot : String → Option ℚ) (invs : List Investimento),
        0 < total_custo invs →
        lucro_prejuizo_perc cot invs
          = lucro_prejuizo cot invs / total_custo invs * 100) := by
  refine ⟨?_, ?_, ?_, ?_, ?_, ?_⟩
  · intro cot i h
    simp [valor_mercado_item, h]
  · intro cot i invs h
    simp only [lucro_prejuizo, valor_mercado_total, total_custo, List.map_cons,
      List.sum_cons, valor_mercado_item, h, Option.getD_none]
    ring
  · intro cot i j h1 h2 h3
    simp [valor_mercado_item, h1, h2, h3]
  · intro invs t ht
    simp only [tickers_consulta, List.mem_map, List.mem_filter] at ht
    obtain ⟨i, ⟨hi, hcl⟩, rfl⟩ := ht
    refine ⟨i, hi, rfl, ?_⟩
    simpa using hcl
  · intro cot invs h
    simp [lucro_prejuizo_perc, not_lt.mpr h]
  · intro cot invs h
    simp [lucro_prejuizo_perc, h]

/-- Witness for `C5_amended`: a holding with no live quote values at cost. -/
theorem C5_amended_witness :
    valor_mercado_item cot0 rf0 = rf0.quantidade * rf0.preco_medio :=
  C5_amended.1 cot0 rf0 (by decide)

/-! ### C7 — price lookup is total and graceful -/

/-- C7: `buscar_cotacoes` returns a plain (possibly empty) mapping on every
input — a provider exception yields the empty mapping (the `try` absorbs
it; nothing propagates to the caller), an empty frame yields the empty
mapping, and every entry of the returned mapping comes from a present,
non-`NaN` quote in the provider data: a symbol whose quote is absent or
`NaN` is simply omitted. -/
theorem C7_price_lookup :
    (∀ tickers : List String, buscar_cotacoes tickers (.error ()) = [])
    ∧ (∀ (tickers : List String) (data : ProviderData), data.isEmpty = true →
        buscar_cotacoes tickers (.ok data) = [])
    ∧ (∀ (tickers : List String) (prov : Except Unit ProviderData)
        (s : String) (q : ℚ), (s, q) ∈ buscar_cotacoes tickers prov →
        ∃ data sa, prov = .ok data ∧ (sa, some q) ∈ data.close) := by
  refine ⟨?_, ?_, ?_⟩
  · intro tickers
    by_cases ht : tickers = [] <;> simp [buscar_cotacoes, ht]
  · intro tickers data hd
    by_cases ht : tickers = [] <;> simp [buscar_cotacoes, ht, hd]
  · intro tickers prov s q hmem
    by_cases ht : tickers = []
    · simp [buscar_cotacoes, ht] at hmem
    · cases prov with
      | error e => simp [buscar_cotacoes, ht] at hmem
      | ok data =>
          by_cases he : data.isEmpty = true
          · simp [buscar_cotacoes, ht, he] at hmem
          · by_cases hl :
                (tickers.map fun t => toUpperStr (stripChars t) ++ ".SA").length = 1
            · rw [buscar_cotacoes, if_neg ht] at hmem
              simp only [he, if_false, hl, if_true, Bool.false_eq_true] at hmem
              cases hlk : (data.close.lookup
                  (tickers.map fun t => toUpperStr (stripChars t) ++ ".SA").headI) with
              | none => rw [hlk] at hmem; simp at hmem
              | some op =>
                  cases op with
                  | none => rw [hlk] at hmem; simp at hmem
                  | some p =>
                      rw [hlk] at hmem
                      simp at hmem
                      refine ⟨data,
                        (tickers.map fun t => toUpperStr (stripChars t) ++ ".SA").headI,
                        rfl, ?_⟩
                      rw [hmem.2]
                      exact lookup_mem hlk
            · rw [buscar_cotacoes, if_neg ht] at hmem
              simp only [he, if_false, hl, Bool.false_eq_true] at hmem
              rw [List.mem_filterMap] at hmem
              obtain ⟨sa, _hsa, hf⟩ := hmem
              cases hlk : data.close.lookup sa with
              | none => rw [hlk] at hf; simp at hf
              | some op =>
                  cases op with
                  | none => rw [hlk] at hf; simp at hf
                  | some p =>
                      rw [hlk] at hf
                      simp at hf
                      refine ⟨data, sa, rfl, ?_⟩
                      rw [← hf.2]
                      exact lookup_mem hlk

/-- A provider frame delivering one valid quote, for the C7 witness. -/
def provData0 : ProviderData :=
  { isEmpty := false, close := [("ABC.SA", some 5)] }

/-- Witness for `C7_price_lookup`: a delivered quote traces back to a
present non-`NaN` provider entry. -/
theorem C7_price_lookup_witness :
    ∃ (data : ProviderData) (sa : String),
      (Except.ok provData0 : Except Unit ProviderData) = .ok data
        ∧ (sa, some (5 : ℚ)) ∈ data.close := by
  have h := C7_price_lookup.2.2 ["ABC"] (.ok provData0) "ABC" 5 (by decide)
  obtain ⟨data, sa, hdata, hmem⟩ := h
  exact ⟨data, sa, hdata, hmem⟩

/-! ### C8 — daily backup exactly once -/

/-- `copyOne` never changes the data files. -/
theorem copyOne_files (hoje : Date) (acc : BackupState) (name : String) :
    (copyOne hoje acc name).files = acc.files := by
  rcases hf : acc.files name with _ | c <;> simp [copyOne, hf]

/-- `copyOne` never changes the config. -/
theorem copyOne_config (hoje : Date) (acc : BackupState) (name : String) :
    (copyOne hoje acc name).config = acc.config := by
  rcases hf : acc.files name with _ | c <;> simp [copyOne, hf]

/-- `copyOne` touches no snapshot key but its own. -/
theorem copyOne_backups_ne (hoje : Date) (acc : BackupState) (name : String)
    (k : String × Date) (h : k ≠ (name, hoje)) :
    (copyOne hoje acc name).backups k = acc.backups k := by
  rcases hf : acc.files name with _ | c <;> simp [copyOne, hf, h]

/-- `copyOne` of an existing file records its content at its key. -/
theorem copyOne_backups_self (hoje : Date) (acc : BackupState)
    (name content : String) (h : acc.files name = some content) :
    (copyOne hoje acc name).backups (name, hoje) = some content := by
  simp [copyOne, h]

/-- The copy loop never changes the data files. -/
theorem foldl_copyOne_files (hoje : Date) :
    ∀ (l : List String) (acc : BackupState),
      (l.foldl (copyOne hoje) acc).files = acc.files
  | [], _ => rfl
  | a :: t, acc => by
      rw [List.foldl_cons, foldl_copyOne_files hoje t, copyOne_files]

/-- The copy loop never changes the config. -/
theorem foldl_copyOne_config (hoje : Date) :
    ∀ (l : List String) (acc : BackupState),
      (l.foldl (copyOne hoje) acc).config = acc.config
  | [], _ => rfl
  | a :: t, acc => by
      rw [List.foldl_cons, foldl_copyOne_config hoje t, copyOne_config]

/-- The copy loop touches no snapshot key of another date. -/
theorem foldl_copyOne_backups_stale (hoje : Date) :
    ∀ (l : List String) (acc : BackupState) (k : String × Date), k.2 ≠ hoje →
      (l.foldl (copyOne hoje) acc).backups k = acc.backups k
  | [], _, _, _ => rfl
  | a :: t, acc, k, h => by
      rw [List.foldl_cons, foldl_copyOne_backups_stale hoje t _ k h,
        copyOne_backups_ne hoje acc a k (fun he => h (by rw [he]))]

/-- The copy loop leaves today's key of an unprocessed name unchanged. -/
theorem foldl_copyOne_backups_notmem (hoje : Date) :
    ∀ (l : List String) (acc : BackupState) (name : String), name ∉ l →
      (l.foldl (copyOne hoje) acc).backups (name, hoje)
        = acc.backups (name, hoje)
  | [], _, _, _ => rfl
  | a :: t, acc, name, h => by
      rw [List.foldl_cons,
        foldl_copyOne_backups_notmem hoje t _ name
          (fun hm => h (List.mem_cons_of_mem _ hm)),
        copyOne_backups_ne hoje acc a (name, hoje) ?hne]
      case hne =>
        intro he
        apply h
        injection he with h1 _
        rw [h1]
        exact List.mem_cons_self a t

/-- The copy loop records the content of every existing listed file at its
dated key (for a duplicate-free list of names). -/
theorem foldl_copyOne_backups_mem (hoje : Date) :
    ∀ (l : List String) (acc : BackupState) (name content : String),
      l.Nodup → name ∈ l → acc.files name = some content →
      (l.foldl (copyOne hoje) acc).backups (name, hoje) = some content
  | [], _, name, _, _, hmem, _ => absurd hmem (List.not_mem_nil name)
  | a :: t, acc, name, content, hnd, hmem, hfile => by
      rw [List.foldl_cons]
      rcases List.mem_cons.mp hmem with rfl | hmem2
      · rw [foldl_copyOne_backups_notmem hoje t _ name
          (List.nodup_cons.mp hnd).1]
        exact copyOne_backups_self hoje acc name content hfile
      · exact foldl_copyOne_backups_mem hoje t _ name content
          (List.nodup_cons.mp hnd).2 hmem2 (by rw [copyOne_files]; exact hfile)

/-- After any run, today is recorded as the last backup date. -/
theorem criar_backup_marks (hoje : Date) (s : BackupState) :
    (criar_backup_diario hoje s).config.ultimo_backup = some hoje := by
  by_cases h : s.config.ultimo_backup = some hoje <;>
    simp [criar_backup_diario, h]

/-- C8: when the recorded last-backup date already equals today the run is
a complete no-op; otherwise the run snapshots the current content of every
existing managed collection file under the key `(name, today)`, touches no
other date's snapshots, and persists today as the last backup date — so a
second run on the same date changes nothing and each collection has
exactly one snapshot for that date. -/
theorem C8_backup_once :
    (∀ (hoje : Date) (s : BackupState),
        s.config.ultimo_backup = some hoje → criar_backup_diario hoje s = s)
    ∧ (∀ (hoje : Date) (s : BackupState),
        (criar_backup_diario hoje s).config.ultimo_backup = some hoje)
    ∧ (∀ (hoje : Date) (s : BackupState) (name content : String),
        s.config.ultimo_backup ≠ some hoje → name ∈ files_to_backup →
        s.files name = some content →
        (criar_backup_diario hoje s).backups (name, hoje) = some content)
    ∧ (∀ (hoje : Date) (s : BackupState) (k : String × Date), k.2 ≠ hoje →
        (criar_backup_diario hoje s).backups k = s.backups k)
    ∧ (∀ (hoje : Date) (s : BackupState),
        criar_backup_diario hoje (criar_backup_diario hoje s)
          = criar_backup_diario hoje s) := by
  refine ⟨?_, criar_backup_marks, ?_, ?_, ?_⟩
  · intro hoje s h
    simp [criar_backup_diario, h]
  · intro hoje s name content hne hmem hfile
    rw [criar_backup_diario, if_neg hne]
    exact foldl_copyOne_backups_mem hoje files_to_backup s name content
      (by decide) hmem hfile
  · intro hoje s k hk
    by_cases h : s.config.ultimo_backup = some hoje
    · simp [criar_backup_diario, h]
    · rw [criar_backup_diario, if_neg h]
      exact foldl_copyOne_backups_stale hoje files_to_backup s k hk
  · intro hoje s
    set r := criar_backup_diario hoje s with hr
    have h2 : r.config.ultimo_backup = some hoje := by
      rw [hr]
      exact criar_backup_marks hoje s
    simp [criar_backup_diario, h2]

/-- A backup state with one existing data file and no prior backup. -/
def bstate0 : BackupState :=
  { files := fun n => if n = "lancamentos.json" then some "L" else none
    backups := fun _ => none
    config := { ultimo_backup := none, ultimo_mes_recorrente := none } }

/-- Witness for `C8_backup_once`: a fresh run snapshots the transactions
file under today's key. -/
theorem C8_backup_once_witness :
    (criar_backup_diario hoje0 bstate0).backups ("lancamentos.json", hoje0)
      = some "L" :=
  C8_backup_once.2.2.1 hoje0 bstate0 "lancamentos.json" "L"
    (by decide) (by decide) (by decide)
